import Mathlib

/-
Verification of dexbot.py: a Telegram trading-bot relay.  The Python source
is shallowly embedded below: pure string manipulation becomes Lean functions,
raised exceptions become Except.error carrying the exception message, and the
external HTTP / chat-transport boundaries become explicit oracles.
-/

set_option autoImplicit false

deriving instance DecidableEq for Except

namespace Dexbot

/-! ### Python string primitives -/

/-- Accumulator pass for Python str.split() with no separator argument:
splits on runs of whitespace and discards empty fields. -/
def pySplitAux : List Char → List Char → List String
  | [], acc => if acc.isEmpty then [] else [String.mk acc.reverse]
  | c :: rest, acc =>
    if c.isWhitespace then
      if acc.isEmpty then pySplitAux rest []
      else String.mk acc.reverse :: pySplitAux rest []
    else pySplitAux rest (c :: acc)

/-- Python str.split() with no arguments, as used on the inbound message text. -/
def pySplit (s : String) : List String := pySplitAux s.data []

/-- Value of a digit run, most significant first. -/
def digitsToNat (ds : List Char) : Nat :=
  ds.foldl (fun n d => 10 * n + (d.toNat - 48)) 0

/-- Unsigned decimal literal: digits with an optional fractional part, at
least one digit overall.  Covers the decimal forms of Python float() that the
bot receives; exponent and inf/nan forms do not occur in the commands under
study. -/
def parseUnsignedDecimal (cs : List Char) : Option Rat :=
  let intPart := cs.takeWhile Char.isDigit
  match cs.dropWhile Char.isDigit with
  | [] => if intPart.isEmpty then none else some (digitsToNat intPart : Rat)
  | c :: frac =>
    if c = Char.ofNat 46 ∧ frac.all Char.isDigit ∧ (¬intPart.isEmpty ∨ ¬frac.isEmpty) then
      some ((digitsToNat intPart : Rat) + (digitsToNat frac : Rat) / (10 : Rat) ^ frac.length)
    else none

/-- Signed decimal literal with surrounding whitespace stripped, as Python
float() strips it. -/
def parseDecimal (s : String) : Option Rat :=
  let cs := ((s.data.dropWhile Char.isWhitespace).reverse.dropWhile Char.isWhitespace).reverse
  match cs with
  | c :: rest =>
    if c = Char.ofNat 45 then (parseUnsignedDecimal rest).map (fun q => -q)
    else if c = Char.ofNat 43 then parseUnsignedDecimal rest
    else parseUnsignedDecimal cs
  | [] => none

/-- Python float(s): the parsed value, or the ValueError message float raises
on a non-numeric string. -/
def pyFloat (s : String) : Except String Rat :=
  match parseDecimal s with
  | some q => .ok q
  | none => .error ("could not convert string to float: \x27" ++ s ++ "\x27")

/-- Tuple unpacking a, b, c = xs: succeeds on exactly three elements and
raises ValueError otherwise, with the CPython message. -/
def unpack3 (xs : List String) : Except String (String × String × String) :=
  match xs with
  | [a, b, c] => .ok (a, b, c)
  | _ =>
    if xs.length < 3 then
      .error ("not enough values to unpack (expected 3, got " ++ toString xs.length ++ ")")
    else .error "too many values to unpack (expected 3)"

/-- Substring test used to state that a delivered message contains a given
literal fragment. -/
def containsSub (hay needle : String) : Bool :=
  hay.data.tails.any (fun t => needle.data.isPrefixOf t)

/-- Python repr of a string-valued dict, as an f-string renders a decoded
JSON response. -/
def pyDictRepr (d : List (String × String)) : String :=
  "\x7b" ++
    String.intercalate ", "
      (d.map (fun kv => "\x27" ++ kv.1 ++ "\x27: \x27" ++ kv.2 ++ "\x27")) ++
  "\x7d"

/-- Python str.format(**data) over the template characters: scans for
brace-delimited placeholders and substitutes data[name]; a placeholder whose
name is not a key of data raises KeyError with that name.  The fuel argument
bounds the recursion and is instantiated with the character count, which every
step strictly consumes. -/
def pyFormatAux (data : List (String × String)) : Nat → List Char → Except String String
  | _, [] => .ok ""
  | 0, _ :: _ => .error "ValueError: fuel exhausted"
  | fuel + 1, c :: rest =>
    if c = Char.ofNat 123 then
      let name := rest.takeWhile (fun d => d ≠ Char.ofNat 125)
      match rest.dropWhile (fun d => d ≠ Char.ofNat 125) with
      | [] => .error "ValueError: Single \x7b encountered in format string"
      | _ :: rest2 =>
        match data.lookup (String.mk name) with
        | some v => (pyFormatAux data fuel rest2).map (fun s => v ++ s)
        | none => .error ("KeyError: \x27" ++ String.mk name ++ "\x27")
    else (pyFormatAux data fuel rest).map (fun s => c.toString ++ s)

/-- Python tmpl.format(**data). -/
def pyFormat (tmpl : String) (data : List (String × String)) : Except String String :=
  pyFormatAux data tmpl.data.length tmpl.data

/-! ### External boundaries

The requests library and the Telegram transport are collaborators outside the
repository; they are modeled as oracles.  One oracle call stands for the
composite requests.post(url, json=payload, timeout=10).json() at the trading
boundary. -/

/-- Payload of one outbound call to the BonkBot trading endpoint, as built by
TelegramBot.execute of one trade. -/
structure TradeCall where
  action : String
  token : String
  amount : Rat
deriving Repr, DecidableEq

/-- Outcome of requests.post(...).json() for one trade call: either the
decoded JSON response object, or an exception raised by requests or by the
JSON decoder (timeout, transport error, malformed body), with its message. -/
inductive HttpJsonOutcome where
  | decoded (resp : List (String × String))
  | exn (msg : String)
deriving Repr, DecidableEq

/-- Trading-boundary oracle: what the external endpoint does on each call. -/
def HttpOracle : Type := TradeCall → HttpJsonOutcome

/-- Oracle under which every trade call succeeds with a fixed response body. -/
def okHttp : HttpOracle := fun _ => .decoded [("status", "ok")]

/-- Oracle under which every trade call times out, the exception message being
the one requests raises. -/
def timeoutHttp : HttpOracle := fun _ => .exn "Read timed out. (read timeout=10)"

/-! ### TelegramBot -/

/-- TelegramBot.execute of a trade: posts the action, token, amount and
credential to the BonkBot API and returns the decoded JSON body.  The Python
method has no exception handling, so any exception raised by the external call
propagates to the caller, modeled as Except.error. -/
def executeTrade (http : HttpOracle) (action token : String) (amount : Rat) :
    Except String (List (String × String)) :=
  match http ⟨action, token, amount⟩ with
  | .decoded resp => .ok resp
  | .exn msg => .error msg

/-- Result of one handler invocation: the reply text sent back to the chat,
and the trade calls issued to the trading boundary during the invocation. -/
structure HandlerResult where
  reply : String
  trades : List TradeCall
deriving Repr, DecidableEq

/-- Try-block of TelegramBot.buy: split the message text, unpack into three
fields, convert the amount with float(), execute the trade, and build the
success reply.  The first component is the reply (ok) or the raised exception
message (error); the second lists the trade calls actually issued, including
a call whose transport raised. -/
def buyTry (http : HttpOracle) (text : String) : Except String String × List TradeCall :=
  match unpack3 (pySplit text) with
  | .error e => (.error e, [])
  | .ok (_, token, amountStr) =>
    match pyFloat amountStr with
    | .error e => (.error e, [])
    | .ok amt =>
      match executeTrade http "buy" token amt with
      | .ok resp => (.ok ("✅ Buy order executed:\n" ++ pyDictRepr resp), [⟨"buy", token, amt⟩])
      | .error e => (.error e, [⟨"buy", token, amt⟩])

/-- TelegramBot.buy: runs the try-block and, on any exception, replies with
the trade-failed message wrapping str(e). -/
def buyHandler (http : HttpOracle) (text : String) : HandlerResult :=
  match buyTry http text with
  | (.ok reply, trades) => ⟨reply, trades⟩
  | (.error e, trades) => ⟨"❌ Trade failed: " ++ e, trades⟩

/-- Try-block of TelegramBot.sell, identical to buy with action sell. -/
def sellTry (http : HttpOracle) (text : String) : Except String String × List TradeCall :=
  match unpack3 (pySplit text) with
  | .error e => (.error e, [])
  | .ok (_, token, amountStr) =>
    match pyFloat amountStr with
    | .error e => (.error e, [])
    | .ok amt =>
      match executeTrade http "sell" token amt with
      | .ok resp => (.ok ("✅ Sell order executed:\n" ++ pyDictRepr resp), [⟨"sell", token, amt⟩])
      | .error e => (.error e, [⟨"sell", token, amt⟩])

/-- TelegramBot.sell: runs the try-block and, on any exception, replies with
the trade-failed message wrapping str(e). -/
def sellHandler (http : HttpOracle) (text : String) : HandlerResult :=
  match sellTry http text with
  | (.ok reply, trades) => ⟨reply, trades⟩
  | (.error e, trades) => ⟨"❌ Trade failed: " ++ e, trades⟩

/-- Reply of the start command handler. -/
def startReply : String :=
  "🚀 DexBot Trading System\n\n" ++
  "Available commands:\n" ++
  "/buy [token] [amount] - Execute buy order\n" ++
  "/sell [token] [amount] - Execute sell order\n" ++
  "/alerts [on/off] - Toggle price alerts"

/-- Reply of TelegramBot.handle of a general message. -/
def unrecognizedReply : String :=
  "Command not recognized. Use /help for available commands"

/-- Handler routing registered in TelegramBot: a CommandHandler fires when the
first word of the text is its command, and every other text message falls to
the general message handler. -/
def route (http : HttpOracle) (text : String) : HandlerResult :=
  match pySplit text with
  | cmd :: _ =>
    if cmd = "/start" then ⟨startReply, []⟩
    else if cmd = "/buy" then buyHandler http text
    else if cmd = "/sell" then sellHandler http text
    else ⟨unrecognizedReply, []⟩
  | [] => ⟨unrecognizedReply, []⟩

/-- One outbound call to bot.send of a message on the chat transport. -/
structure SendCall where
  chat_id : String
  text : String
  parse_mode : String
deriving Repr, DecidableEq

/-- TelegramBot.send of an alert: forwards the message to the chat transport
with the configured channel id and Markdown parse mode.  The method keeps no
history and performs exactly one transport call per invocation. -/
def sendAlert (channelId : String) (message : String) : List SendCall :=
  [⟨channelId, message, "Markdown"⟩]

/-- Transport calls produced by a sequence of send invocations. -/
def sendAlerts (channelId : String) (msgs : List String) : List SendCall :=
  msgs.flatMap (sendAlert channelId)

/-! ### DexBot -/

/-- Template table of the alert formatter, keyed by event type, with the
placeholder names the Python source uses. -/
def templates : List (String × String) :=
  [ ("rug_pull_alert", "🚨 *Rug Pull Alert*\nToken: \x7bsymbol\x7d\nLiquidity Drop: \x7bdrop\x7d%"),
    ("pump_alert", "📈 *Pump Detected*\nToken: \x7bsymbol\x7d\nPrice Change: \x7bchange\x7d%"),
    ("buy", "✅ *Buy Executed*\nToken: \x7btoken\x7d\nAmount: \x7bamount\x7d"),
    ("sell", "📉 *Sell Executed*\nToken: \x7btoken\x7d\nAmount: \x7bamount\x7d") ]

/-- DexBot formatting of an alert message: looks the event type up in the
template table — a KeyError on an unknown event type, since the method does
not catch it — and substitutes the event data into the template. -/
def formatAlertMessage (event_type : String) (data : List (String × String)) :
    Except String String :=
  match templates.lookup event_type with
  | some tmpl => pyFormat tmpl data
  | none => .error ("KeyError: \x27" ++ event_type ++ "\x27")

/-- Required top-level configuration keys checked by DexBot. -/
def requiredKeys : List String := ["telegram", "apis", "blacklists", "thresholds"]

/-- Validation step of DexBot config loading after yaml parsing, the config
document modeled by its top-level key list: raises ValueError when any
required key is missing, otherwise returns the config. -/
def loadConfig (configKeys : List String) : Except String (List String) :=
  if requiredKeys.all (fun k => configKeys.contains k) then .ok configKeys
  else .error "Invalid configuration file"

/-! ### Claim C1 -/

/-- Claim C1 counterexample: on a timeout of the external call, the
trade-execution operation does not return a structured failure result; it
propagates the raw transport exception to its caller. -/
theorem executeTrade_timeout_propagates :
    executeTrade timeoutHttp "buy" "SOL" 5 = .error "Read timed out. (read timeout=10)" ∧
    (executeTrade timeoutHttp "buy" "SOL" 5).isOk = false := by decide

/-- Claim C1 amended: the trade-execution operation has no exception handling
of its own — any exception of the external call propagates to the calling
command handler, which catches it and replies with the trade-failed message;
the exception never escapes past the handler. -/
theorem executeTrade_exception_flow (http : HttpOracle) (token : String) (amt : Rat)
    (msg text amountStr : String)
    (hhttp : http ⟨"buy", token, amt⟩ = .exn msg)
    (hsplit : pySplit text = ["/buy", token, amountStr])
    (hamt : pyFloat amountStr = .ok amt) :
    executeTrade http "buy" token amt = .error msg ∧
    buyHandler http text = ⟨"❌ Trade failed: " ++ msg, [⟨"buy", token, amt⟩]⟩ := by
  have hex : executeTrade http "buy" token amt = .error msg := by
    simp [executeTrade, hhttp]
  refine ⟨hex, ?_⟩
  simp [buyHandler, buyTry, hsplit, unpack3, hamt, hex]

/-- Claim C1 witness: the exception flow at a concrete timed-out buy. -/
theorem executeTrade_exception_flow_witness :
    executeTrade timeoutHttp "buy" "SOL" 5 = .error "Read timed out. (read timeout=10)" ∧
    buyHandler timeoutHttp "/buy SOL 5" =
      ⟨"❌ Trade failed: Read timed out. (read timeout=10)", [⟨"buy", "SOL", 5⟩]⟩ :=
  executeTrade_exception_flow timeoutHttp "SOL" 5 "Read timed out. (read timeout=10)"
    "/buy SOL 5" "5" rfl (by decide) (by decide)

/-! ### Claim C2 -/

/-- Claim C2 counterexample: the rug-pull template reads its liquidity-drop
placeholder from the field drop, so formatting an event carrying the claimed
field name dropPct raises a KeyError, and the text rendered from the field
drop differs from the claimed plain-text template. -/
theorem rug_pull_format_counterexample :
    formatAlertMessage "rug_pull_alert" [("symbol", "FOO"), ("dropPct", "83")] =
      .error "KeyError: \x27drop\x27" ∧
    formatAlertMessage "rug_pull_alert" [("symbol", "FOO"), ("drop", "83")] ≠
      .ok "Rug Pull Alert — Token: FOO, Liquidity Drop: 83%" := by decide

/-- Claim C2 amended: the registered rug-pull template is keyed
rug_pull_alert with placeholders symbol and drop, and formatting the event
with symbol FOO and drop 83 renders the Markdown text with the emoji header
and newlines. -/
theorem rug_pull_template_renders :
    templates.lookup "rug_pull_alert" =
      some "🚨 *Rug Pull Alert*\nToken: \x7bsymbol\x7d\nLiquidity Drop: \x7bdrop\x7d%" ∧
    formatAlertMessage "rug_pull_alert" [("symbol", "FOO"), ("drop", "83")] =
      .ok "🚨 *Rug Pull Alert*\nToken: FOO\nLiquidity Drop: 83%" := by decide

/-! ### Claim C3 -/

/-- Claim C3 counterexample: the buy handler performs no positivity check on
the amount — the nonpositive amount -5 is parsed and the trade is executed,
where the claim requires an invalid-amount parse error and no trade. -/
theorem buy_accepts_nonpositive_amount :
    (buyHandler okHttp "/buy SOL -5").trades = [⟨"buy", "SOL", -5⟩] ∧
    ((-5 : Rat) ≤ 0) ∧
    (buyHandler okHttp "/buy SOL -5").reply =
      "✅ Buy order executed:\n\x7b\x27status\x27: \x27ok\x27\x7d" := by decide

/-- Claim C3 amended: for a three-token buy command, an amount that parses as
a decimal of any sign (including zero and negative) leads to a trade call
with that amount; a non-numeric amount raises the float ValueError, which the
handler catches and replies as a trade failure with no trade call; a token
count other than three raises the unpack ValueError, likewise replied as a
trade failure with no trade call. -/
theorem buy_parse_behavior (http : HttpOracle) (text token amountStr : String) :
    (∀ q : Rat, pySplit text = ["/buy", token, amountStr] → pyFloat amountStr = .ok q →
      (buyHandler http text).trades = [⟨"buy", token, q⟩]) ∧
    (∀ e, pySplit text = ["/buy", token, amountStr] → pyFloat amountStr = .error e →
      buyHandler http text = ⟨"❌ Trade failed: " ++ e, []⟩) ∧
    (∀ e, unpack3 (pySplit text) = .error e →
      buyHandler http text = ⟨"❌ Trade failed: " ++ e, []⟩) := by
  refine ⟨?_, ?_, ?_⟩
  · intro q hsplit hamt
    rcases hex : http ⟨"buy", token, q⟩ with resp | msg <;>
      simp [buyHandler, buyTry, hsplit, unpack3, hamt, executeTrade, hex]
  · intro e hsplit hamt
    simp [buyHandler, buyTry, hsplit, unpack3, hamt]
  · intro e hunpack
    simp [buyHandler, buyTry, hunpack]

/-- Claim C3 witness: the amended behavior at the three concrete inputs
covering its branches. -/
theorem buy_parse_behavior_witness :
    (buyHandler okHttp "/buy SOL -5").trades = [⟨"buy", "SOL", (-5 : Rat)⟩] ∧
    buyHandler okHttp "/buy SOL abc" =
      ⟨"❌ Trade failed: could not convert string to float: \x27abc\x27", []⟩ ∧
    buyHandler okHttp "/buy" =
      ⟨"❌ Trade failed: not enough values to unpack (expected 3, got 1)", []⟩ :=
  ⟨(buy_parse_behavior okHttp "/buy SOL -5" "SOL" "-5").1 (-5) (by decide) (by decide),
   (buy_parse_behavior okHttp "/buy SOL abc" "SOL" "abc").2.1
      "could not convert string to float: \x27abc\x27" (by decide) (by decide),
   (buy_parse_behavior okHttp "/buy" "" "").2.2
      "not enough values to unpack (expected 3, got 1)" (by decide)⟩

/-! ### Claim C4 -/

/-- Claim C4 counterexample: delivering the same message twice performs two
transport calls, not one — the delivery path keeps no dedup history. -/
theorem send_alert_repeats_duplicate :
    sendAlerts "chan-1" ["alert-msg", "alert-msg"] =
      [⟨"chan-1", "alert-msg", "Markdown"⟩, ⟨"chan-1", "alert-msg", "Markdown"⟩] ∧
    (sendAlerts "chan-1" ["alert-msg", "alert-msg"]).length ≠ 1 := by decide

/-- Claim C4 amended: the alert sender performs exactly one transport call per
submitted message, with the configured channel id and Markdown parse mode;
there is no deduplication, so repeated messages are each re-sent. -/
theorem send_alert_one_call_per_message (channelId : String) (msgs : List String) :
    sendAlerts channelId msgs = msgs.map (fun m => ⟨channelId, m, "Markdown"⟩) ∧
    (sendAlerts channelId msgs).length = msgs.length := by
  constructor
  · induction msgs with
    | nil => rfl
    | cons m rest ih => simp [sendAlerts, sendAlert] at ih ⊢; exact ih
  · induction msgs with
    | nil => rfl
    | cons m rest ih => simp [sendAlerts, sendAlert] at ih ⊢; exact ih

/-! ### Claim C5 -/

/-- Claim C5 counterexample: the bare command with missing arguments is
routed to the buy handler, whose reply is the caught unpack ValueError
wrapped as a trade failure — not the fixed command-not-recognized message. -/
theorem slash_buy_reply_counterexample :
    route okHttp "/buy" =
      ⟨"❌ Trade failed: not enough values to unpack (expected 3, got 1)", []⟩ ∧
    (route okHttp "/buy").reply ≠ unrecognizedReply := by decide

/-- Claim C5 amended: the bare command with missing arguments reaches the buy
handler, which catches the unpack ValueError and replies with the
trade-failed message, and no trade-execution call is attempted; the fixed
command-not-recognized reply is not what is sent. -/
theorem slash_buy_no_trade (http : HttpOracle) :
    route http "/buy" =
      ⟨"❌ Trade failed: not enough values to unpack (expected 3, got 1)", []⟩ ∧
    (route http "/buy").trades = [] := by
  exact ⟨rfl, rfl⟩

/-! ### Claim C6 -/

/-- Claim C6: on the sell command with the non-numeric amount, the delivered
error reply contains the literal offending amount text, and no
trade-execution call to the external trading boundary occurs. -/
theorem sell_invalid_amount_behavior (http : HttpOracle) :
    route http "/sell SOL abc" =
      ⟨"❌ Trade failed: could not convert string to float: \x27abc\x27", []⟩ ∧
    containsSub (route http "/sell SOL abc").reply "abc" = true ∧
    (route http "/sell SOL abc").trades = [] := by
  exact ⟨rfl, rfl, rfl⟩

/-! ### Claim C7 -/

/-- Claim C7: configuration validation raises the fatal ValueError whenever a
required top-level key is absent, and accepts a document in which all four
required keys are present. -/
theorem loadConfig_requires_all_keys (configKeys : List String) :
    ((∃ k, k ∈ requiredKeys ∧ ¬ k ∈ configKeys) →
      loadConfig configKeys = .error "Invalid configuration file") ∧
    ((∀ k, k ∈ requiredKeys → k ∈ configKeys) → loadConfig configKeys = .ok configKeys) := by
  constructor
  · rintro ⟨k, hk, hnk⟩
    simp only [loadConfig]
    rw [if_neg]
    simp only [List.all_eq_true, not_forall]
    exact ⟨k, hk, by simpa using hnk⟩
  · intro h
    simp only [loadConfig]
    rw [if_pos]
    rw [List.all_eq_true]
    intro k hk
    simpa using h k hk

/-- Claim C7 witness: a document missing the thresholds key is rejected, and
one with all four required keys is accepted. -/
theorem loadConfig_requires_all_keys_witness :
    loadConfig ["telegram", "apis", "blacklists"] = .error "Invalid configuration file" ∧
    loadConfig ["telegram", "apis", "blacklists", "thresholds"] =
      .ok ["telegram", "apis", "blacklists", "thresholds"] :=
  ⟨(loadConfig_requires_all_keys ["telegram", "apis", "blacklists"]).1
      ⟨"thresholds", by decide, by decide⟩,
   (loadConfig_requires_all_keys ["telegram", "apis", "blacklists", "thresholds"]).2
      (by decide)⟩

/-! ### Claim C8 -/

/-- Claim C8: formatting an event whose type has no registered template fails
with the KeyError naming the event type — the error is surfaced to the
caller, never a rendered message and never a silent drop. -/
theorem formatAlertMessage_unknown_event_raises (event_type : String)
    (data : List (String × String)) (h : templates.lookup event_type = none) :
    formatAlertMessage event_type data = .error ("KeyError: \x27" ++ event_type ++ "\x27") := by
  simp [formatAlertMessage, h]

/-- Claim C8 witness: the unregistered event type liquidity_alert raises. -/
theorem formatAlertMessage_unknown_event_raises_witness :
    formatAlertMessage "liquidity_alert" [] = .error "KeyError: \x27liquidity_alert\x27" :=
  formatAlertMessage_unknown_event_raises "liquidity_alert" [] (by decide)

/-! ### Claim C10 -/

/-- Successful buy replies always carry the fixed success header. -/
theorem buyTry_ok_shape (http : HttpOracle) (text r : String)
    (h : (buyTry http text).1 = .ok r) : ∃ s, r = "✅ Buy order executed:\n" ++ s := by
  unfold buyTry at h
  split at h
  · simp at h
  · split at h
    · simp at h
    · split at h
      · simp at h
        exact ⟨_, h.symm⟩
      · simp at h

/-- Successful sell replies always carry the fixed success header. -/
theorem sellTry_ok_shape (http : HttpOracle) (text r : String)
    (h : (sellTry http text).1 = .ok r) : ∃ s, r = "✅ Sell order executed:\n" ++ s := by
  unfold sellTry at h
  split at h
  · simp at h
  · split at h
    · simp at h
    · split at h
      · simp at h
        exact ⟨_, h.symm⟩
      · simp at h

/-- Claim C10: the command handlers are total at the chat boundary — every
invocation produces a reply that is either the fixed success header followed
by the response, or the trade-failed header followed by the caught exception
message; an exception raised anywhere in the try-block (splitting, amount
conversion, trade execution) is caught and replied, never propagated. -/
theorem handlers_catch_all_exceptions (http : HttpOracle) (text : String) :
    ((∃ s, (buyHandler http text).reply = "✅ Buy order executed:\n" ++ s) ∨
     (∃ e, (buyHandler http text).reply = "❌ Trade failed: " ++ e)) ∧
    (∀ e trades, buyTry http text = (.error e, trades) →
      buyHandler http text = ⟨"❌ Trade failed: " ++ e, trades⟩) ∧
    ((∃ s, (sellHandler http text).reply = "✅ Sell order executed:\n" ++ s) ∨
     (∃ e, (sellHandler http text).reply = "❌ Trade failed: " ++ e)) ∧
    (∀ e trades, sellTry http text = (.error e, trades) →
      sellHandler http text = ⟨"❌ Trade failed: " ++ e, trades⟩) := by
  refine ⟨?_, ?_, ?_, ?_⟩
  · rcases hb : buyTry http text with ⟨r, trades⟩
    rcases r with e | r
    · right
      exact ⟨e, by simp [buyHandler, hb]⟩
    · left
      obtain ⟨s, hs⟩ := buyTry_ok_shape http text r (by rw [hb])
      exact ⟨s, by simp [buyHandler, hb, hs]⟩
  · intro e trades h
    simp [buyHandler, h]
  · rcases hb : sellTry http text with ⟨r, trades⟩
    rcases r with e | r
    · right
      exact ⟨e, by simp [sellHandler, hb]⟩
    · left
      obtain ⟨s, hs⟩ := sellTry_ok_shape http text r (by rw [hb])
      exact ⟨s, by simp [sellHandler, hb, hs]⟩
  · intro e trades h
    simp [sellHandler, h]

/-- Claim C10 witness: the catch-and-reply behavior at a concrete raising
input for each handler. -/
theorem handlers_catch_all_exceptions_witness :
    buyHandler okHttp "/buy" =
      ⟨"❌ Trade failed: not enough values to unpack (expected 3, got 1)", []⟩ ∧
    sellHandler okHttp "/sell only-token" =
      ⟨"❌ Trade failed: not enough values to unpack (expected 3, got 2)", []⟩ :=
  ⟨(handlers_catch_all_exceptions okHttp "/buy").2.1
      "not enough values to unpack (expected 3, got 1)" [] (by decide),
   (handlers_catch_all_exceptions okHttp "/sell only-token").2.2.2
      "not enough values to unpack (expected 3, got 2)" [] (by decide)⟩

end Dexbot
